import Mathlib

/-!
Verification of the texture data model and image codec adapter of the
`three-d-asset` repository (files `src/texture.rs`, `src/parser/img.rs`,
`src/io/parser/img.rs`, `src/io.rs`).

The external `image` codec crate is treated as a black box, as the spec
prescribes: its decoder output is modelled by the `DynamicImage` type below
(channel layout, dimensions and the flat byte buffer it reports), and the
adapter functions of the repository are embedded as functions from decoded
images to results.  Rust `u8` bytes are modelled as `Nat` (the adapter only
moves bytes around, never performs arithmetic on them); `f16`/`f32` channel
values are modelled as `Rat` (the only float computation the adapter performs,
the RGBE radiance expansion, is exact in binary floating point and hence in
`Rat`).  A Rust `panic!`/`unimplemented!()`/`unreachable!()` abort is a
distinct outcome `PResult.panicked`, separate from returning an `Err` value.
-/

/-- `Interpolation` from `src/texture.rs`. -/
inductive Interpolation where
  | Nearest
  | Linear
deriving DecidableEq, Repr

/-- `Wrapping` from `src/texture.rs`. -/
inductive Wrapping where
  | Repeat
  | MirroredRepeat
  | ClampToEdge
deriving DecidableEq, Repr

/-- `TextureData` from `src/texture.rs`: the 12 pixel-format variants,
{1,2,3,4 channels} x {u8, f16, f32}.  Float channel values are modelled
as `Rat`. -/
inductive TextureData where
  | RU8 (d : List Nat)
  | RgU8 (d : List (Nat × Nat))
  | RgbU8 (d : List (Nat × Nat × Nat))
  | RgbaU8 (d : List (Nat × Nat × Nat × Nat))
  | RF16 (d : List Rat)
  | RgF16 (d : List (Rat × Rat))
  | RgbF16 (d : List (Rat × Rat × Rat))
  | RgbaF16 (d : List (Rat × Rat × Rat × Rat))
  | RF32 (d : List Rat)
  | RgF32 (d : List (Rat × Rat))
  | RgbF32 (d : List (Rat × Rat × Rat))
  | RgbaF32 (d : List (Rat × Rat × Rat × Rat))
deriving DecidableEq, Repr

/-- `Texture2D` from `src/texture.rs`. -/
structure Texture2D where
  data : TextureData
  width : Nat
  height : Nat
  min_filter : Interpolation
  mag_filter : Interpolation
  mip_map_filter : Option Interpolation
  wrap_s : Wrapping
  wrap_t : Wrapping
deriving DecidableEq, Repr

/-- `impl Default for Texture2D` from `src/texture.rs`. -/
def Texture2D.default : Texture2D where
  data := TextureData.RgbaU8 [(0, 0, 0, 0)]
  width := 1
  height := 1
  min_filter := Interpolation.Linear
  mag_filter := Interpolation.Linear
  mip_map_filter := some Interpolation.Linear
  wrap_s := Wrapping.Repeat
  wrap_t := Wrapping.Repeat

/-- `TextureCubeData` from `src/texture.rs`: the same 12 variants, each
holding six per-face sequences (right, left, top, bottom, front, back). -/
inductive TextureCubeData where
  | RU8 (r l t b f bk : List Nat)
  | RgU8 (r l t b f bk : List (Nat × Nat))
  | RgbU8 (r l t b f bk : List (Nat × Nat × Nat))
  | RgbaU8 (r l t b f bk : List (Nat × Nat × Nat × Nat))
  | RF16 (r l t b f bk : List Rat)
  | RgF16 (r l t b f bk : List (Rat × Rat))
  | RgbF16 (r l t b f bk : List (Rat × Rat × Rat))
  | RgbaF16 (r l t b f bk : List (Rat × Rat × Rat × Rat))
  | RF32 (r l t b f bk : List Rat)
  | RgF32 (r l t b f bk : List (Rat × Rat))
  | RgbF32 (r l t b f bk : List (Rat × Rat × Rat))
  | RgbaF32 (r l t b f bk : List (Rat × Rat × Rat × Rat))
deriving DecidableEq, Repr

/-- `TextureCube` from `src/texture.rs`. -/
structure TextureCube where
  data : TextureCubeData
  width : Nat
  height : Nat
  min_filter : Interpolation
  mag_filter : Interpolation
  mip_map_filter : Option Interpolation
  wrap_s : Wrapping
  wrap_t : Wrapping
  wrap_r : Wrapping
deriving DecidableEq, Repr

/-- `impl Default for TextureCube` from `src/texture.rs`. -/
def TextureCube.default : TextureCube where
  data := TextureCubeData.RgbaU8
    [(255, 0, 0, 255)] [(255, 0, 0, 255)] [(255, 0, 0, 255)]
    [(255, 0, 0, 255)] [(255, 0, 0, 255)] [(255, 0, 0, 255)]
  width := 1
  height := 1
  min_filter := Interpolation.Linear
  mag_filter := Interpolation.Linear
  mip_map_filter := some Interpolation.Linear
  wrap_s := Wrapping.Repeat
  wrap_t := Wrapping.Repeat
  wrap_r := Wrapping.Repeat

/-- The decoded image handed to the adapter by the external `image` crate
(`image::DynamicImage` after `load_from_memory` / `reader.decode()`).  The
four 8-bit layouts the adapter supports are listed with their reported
dimensions and flat byte buffer; every other layout the crate can produce
(16-bit, 32-bit-float, ...) is collapsed into `ImageUnsupported`, since the
adapter never inspects their buffers. -/
inductive DynamicImage where
  | ImageLuma8 (width height : Nat) (bytes : List Nat)
  | ImageLumaA8 (width height : Nat) (bytes : List Nat)
  | ImageRgb8 (width height : Nat) (bytes : List Nat)
  | ImageRgba8 (width height : Nat) (bytes : List Nat)
  | ImageUnsupported (width height : Nat)
deriving DecidableEq, Repr

/-- `img.width()` of the decoded image. -/
def DynamicImage.width : DynamicImage → Nat
  | .ImageLuma8 w _ _ => w
  | .ImageLumaA8 w _ _ => w
  | .ImageRgb8 w _ _ => w
  | .ImageRgba8 w _ _ => w
  | .ImageUnsupported w _ => w

/-- `img.height()` of the decoded image. -/
def DynamicImage.height : DynamicImage → Nat
  | .ImageLuma8 _ h _ => h
  | .ImageLumaA8 _ h _ => h
  | .ImageRgb8 _ h _ => h
  | .ImageRgba8 _ h _ => h
  | .ImageUnsupported _ _ => 0

/-- Errors the adapter can return (`crate::Result`): in the embedded slice of
the code the only returned errors are the external decoder's, which we do not
distinguish further. -/
inductive ImgError where
  | decodeError
deriving DecidableEq, Repr

/-- Outcome of a Rust function returning `Result` that may also `panic!`:
`ok`, a returned `Err`, or a process abort
(`unimplemented!()` / `unreachable!()`). -/
inductive PResult (α : Type) where
  | ok (a : α)
  | err (e : ImgError)
  | panicked
deriving DecidableEq, Repr

/-- The `?` operator: propagate `Err`; a panic also propagates. -/
def PResult.bind {α β : Type} : PResult α → (α → PResult β) → PResult β
  | .ok a, f => f a
  | .err e, _ => .err e
  | .panicked, _ => .panicked

/-- The de-interleaving loop `for i in 0..bytes.len()/2 { push([bytes[2i],
bytes[2i+1]]) }` from `image_from_bytes` / `Texture2D::deserialize`. -/
def group2 (bytes : List Nat) : List (Nat × Nat) :=
  (List.range (bytes.length / 2)).map fun i =>
    (bytes.getD (2 * i) 0, bytes.getD (2 * i + 1) 0)

/-- The de-interleaving loop for 3-channel data. -/
def group3 (bytes : List Nat) : List (Nat × Nat × Nat) :=
  (List.range (bytes.length / 3)).map fun i =>
    (bytes.getD (3 * i) 0, bytes.getD (3 * i + 1) 0, bytes.getD (3 * i + 2) 0)

/-- The de-interleaving loop for 4-channel data. -/
def group4 (bytes : List Nat) : List (Nat × Nat × Nat × Nat) :=
  (List.range (bytes.length / 4)).map fun i =>
    (bytes.getD (4 * i) 0, bytes.getD (4 * i + 1) 0,
     bytes.getD (4 * i + 2) 0, bytes.getD (4 * i + 3) 0)

/-- `image_from_bytes` (`src/parser/img.rs`) and the identical non-HDR body of
`Texture2D::deserialize` (`src/io/parser/img.rs`), starting from the decoded
`DynamicImage` (the `image::load_from_memory` / `reader.decode()` call itself
is the external codec).  The `_ => unimplemented!()` arm on any layout outside
the four 8-bit ones is a panic. -/
def image_from_decoded : DynamicImage → PResult Texture2D
  | .ImageLuma8 w h bytes =>
      .ok { Texture2D.default with data := TextureData.RU8 bytes, width := w, height := h }
  | .ImageLumaA8 w h bytes =>
      .ok { Texture2D.default with data := TextureData.RgU8 (group2 bytes), width := w, height := h }
  | .ImageRgb8 w h bytes =>
      .ok { Texture2D.default with data := TextureData.RgbU8 (group3 bytes), width := w, height := h }
  | .ImageRgba8 w h bytes =>
      .ok { Texture2D.default with data := TextureData.RgbaU8 (group4 bytes), width := w, height := h }
  | .ImageUnsupported _ _ => .panicked

/-- `DynamicImage::new_rgba8(w, h)`: a fresh RGBA image whose buffer is
`w*h*4` zero bytes. -/
def new_rgba8 (w h : Nat) : DynamicImage :=
  DynamicImage.ImageRgba8 w h (List.replicate (w * h * 4) 0)

/-- `Serialize for Texture2D` (`src/io/parser/img.rs`), up to the PNG byte
encoding: the function builds `DynamicImage::new_rgba8(self.width,
self.height)` when the data is the `RgbaU8` variant (the pixel data itself is
never copied in — the source carries a `TODO: Put actual pixel data`), panics
(`unimplemented!()`) on every other variant, and hands the image to the
external lossless PNG encoder.  The returned `DynamicImage` stands for the
encoded byte vector: the encoder is deterministic, and decoding those bytes
yields this image back. -/
def Texture2D.serialize_image (t : Texture2D) : PResult DynamicImage :=
  match t.data with
  | TextureData.RgbaU8 _ => .ok (new_rgba8 t.width t.height)
  | _ => .panicked

/-- `Texture2D::serialize` followed by `Texture2D::deserialize` of the
produced bytes.  The PNG layer is external and lossless, so deserialization
sees exactly the `DynamicImage` that was encoded. -/
def roundtrip (t : Texture2D) : PResult Texture2D :=
  (t.serialize_image).bind image_from_decoded

/-- The `if let TextureData::RU8(data) = face.data { data } else {
unreachable!() }` block of cube assembly. -/
def asRU8 : TextureData → PResult (List Nat)
  | TextureData.RU8 d => .ok d
  | _ => .panicked

/-- The `unreachable!()` extractor for the `RgU8` variant. -/
def asRgU8 : TextureData → PResult (List (Nat × Nat))
  | TextureData.RgU8 d => .ok d
  | _ => .panicked

/-- The `unreachable!()` extractor for the `RgbU8` variant. -/
def asRgbU8 : TextureData → PResult (List (Nat × Nat × Nat))
  | TextureData.RgbU8 d => .ok d
  | _ => .panicked

/-- The `unreachable!()` extractor for the `RgbaU8` variant. -/
def asRgbaU8 : TextureData → PResult (List (Nat × Nat × Nat × Nat))
  | TextureData.RgbaU8 d => .ok d
  | _ => .panicked

/-- The five consecutive `if let ... else unreachable!()` extractions (left,
top, bottom, front, back) inside one arm of the `match right.data` in
`cube_image_from_bytes` / `TextureCube::from_bytes`, followed by building the
cube-data variant. -/
def chain5 {γ : Type} (E : TextureData → PResult γ)
    (mk : γ → γ → γ → γ → γ → TextureCubeData)
    (l t b f bk : TextureData) : PResult TextureCubeData :=
  (E l).bind fun ld =>
  (E t).bind fun td =>
  (E b).bind fun bd =>
  (E f).bind fun fd =>
  (E bk).bind fun bkd => .ok (mk ld td bd fd bkd)

/-- The `match right.data` of `cube_image_from_bytes` (`src/parser/img.rs`)
and `TextureCube::from_bytes` (`src/io/parser/img.rs`): one arm per 8-bit
variant, each extracting the same variant from the other five faces with
`unreachable!()` on mismatch, and `_ => unimplemented!()` on any other
variant of the right face. -/
def cube_data (r l t b f bk : TextureData) : PResult TextureCubeData :=
  match r with
  | TextureData.RU8 rd => chain5 asRU8 (TextureCubeData.RU8 rd) l t b f bk
  | TextureData.RgU8 rd => chain5 asRgU8 (TextureCubeData.RgU8 rd) l t b f bk
  | TextureData.RgbU8 rd => chain5 asRgbU8 (TextureCubeData.RgbU8 rd) l t b f bk
  | TextureData.RgbaU8 rd => chain5 asRgbaU8 (TextureCubeData.RgbaU8 rd) l t b f bk
  | _ => .panicked

/-- `cube_image_from_bytes` (`src/parser/img.rs`) and the identical
`TextureCube::from_bytes` (`src/io/parser/img.rs`), starting from the six
decoded `DynamicImage`s: decode each face (`?` propagates failures), match
the variants, then build the cube copying `width`, `height`, the filters and
the wraps from the decoded right face (note the source sets
`wrap_r: right.wrap_s`). -/
def cube_image_from_decoded (ri le to_ bo fr ba : DynamicImage) : PResult TextureCube :=
  (image_from_decoded ri).bind fun right =>
  (image_from_decoded le).bind fun left =>
  (image_from_decoded to_).bind fun top =>
  (image_from_decoded bo).bind fun bottom =>
  (image_from_decoded fr).bind fun front =>
  (image_from_decoded ba).bind fun back =>
  (cube_data right.data left.data top.data bottom.data front.data back.data).bind fun data =>
  .ok { data := data
        width := right.width
        height := right.height
        min_filter := right.min_filter
        mag_filter := right.mag_filter
        mip_map_filter := right.mip_map_filter
        wrap_s := right.wrap_s
        wrap_t := right.wrap_t
        wrap_r := right.wrap_s }

/-- An RGBE texel as produced by the external HDR decoder's
`read_image_native` (`image::codecs::hdr::Rgbe8Pixel`): three mantissa bytes
and a shared exponent byte. -/
structure Rgbe8Pixel where
  c0 : Nat
  c1 : Nat
  c2 : Nat
  e : Nat
deriving DecidableEq, Repr

/-- `Rgbe8Pixel::to_hdr` of the external `image` crate: zero if the exponent
byte is zero, otherwise each channel byte scaled by `2^(e - 136)`.  The
computation is exact in binary floating point for byte-sized mantissas, so
`Rat` models the `f32` result exactly. -/
def Rgbe8Pixel.to_hdr (p : Rgbe8Pixel) : Rat × Rat × Rat :=
  if p.e = 0 then (0, 0, 0)
  else
    let scale : Rat := (2 : Rat) ^ ((p.e : Int) - 136)
    (scale * p.c0, scale * p.c1, scale * p.c2)

/-- The `width`/`height` metadata reported by the external HDR decoder. -/
structure HdrMetadata where
  width : Nat
  height : Nat
deriving DecidableEq, Repr

/-- `hdr_image_from_bytes` (`src/parser/img.rs`) and the identical HDR branch
of `Texture2D::deserialize` (`src/io/parser/img.rs`), starting from the
external decoder's output (metadata and native RGBE texel list): map each
native texel through `to_hdr`, keep the three float channels, and take every
remaining field from `Default`. -/
def hdr_image_from_decoded (metadata : HdrMetadata) (img : List Rgbe8Pixel) : Texture2D :=
  { Texture2D.default with
      data := TextureData.RgbF32 (img.map Rgbe8Pixel.to_hdr)
      width := metadata.width
      height := metadata.height }

/-- The variant tag (channel-count / bit-depth class) of a `TextureData`. -/
def TextureData.tag : TextureData → Nat
  | .RU8 _ => 0
  | .RgU8 _ => 1
  | .RgbU8 _ => 2
  | .RgbaU8 _ => 3
  | .RF16 _ => 4
  | .RgF16 _ => 5
  | .RgbF16 _ => 6
  | .RgbaF16 _ => 7
  | .RF32 _ => 8
  | .RgF32 _ => 9
  | .RgbF32 _ => 10
  | .RgbaF32 _ => 11

/-- The six per-face sequences of a `TextureCubeData`, each repackaged as a
`TextureData` of the same variant, in right/left/top/bottom/front/back
order. -/
def TextureCubeData.faces : TextureCubeData → List TextureData
  | .RU8 r l t b f bk => [.RU8 r, .RU8 l, .RU8 t, .RU8 b, .RU8 f, .RU8 bk]
  | .RgU8 r l t b f bk => [.RgU8 r, .RgU8 l, .RgU8 t, .RgU8 b, .RgU8 f, .RgU8 bk]
  | .RgbU8 r l t b f bk => [.RgbU8 r, .RgbU8 l, .RgbU8 t, .RgbU8 b, .RgbU8 f, .RgbU8 bk]
  | .RgbaU8 r l t b f bk => [.RgbaU8 r, .RgbaU8 l, .RgbaU8 t, .RgbaU8 b, .RgbaU8 f, .RgbaU8 bk]
  | .RF16 r l t b f bk => [.RF16 r, .RF16 l, .RF16 t, .RF16 b, .RF16 f, .RF16 bk]
  | .RgF16 r l t b f bk => [.RgF16 r, .RgF16 l, .RgF16 t, .RgF16 b, .RgF16 f, .RgF16 bk]
  | .RgbF16 r l t b f bk => [.RgbF16 r, .RgbF16 l, .RgbF16 t, .RgbF16 b, .RgbF16 f, .RgbF16 bk]
  | .RgbaF16 r l t b f bk => [.RgbaF16 r, .RgbaF16 l, .RgbaF16 t, .RgbaF16 b, .RgbaF16 f, .RgbaF16 bk]
  | .RF32 r l t b f bk => [.RF32 r, .RF32 l, .RF32 t, .RF32 b, .RF32 f, .RF32 bk]
  | .RgF32 r l t b f bk => [.RgF32 r, .RgF32 l, .RgF32 t, .RgF32 b, .RgF32 f, .RgF32 bk]
  | .RgbF32 r l t b f bk => [.RgbF32 r, .RgbF32 l, .RgbF32 t, .RgbF32 b, .RgbF32 f, .RgbF32 bk]
  | .RgbaF32 r l t b f bk => [.RgbaF32 r, .RgbaF32 l, .RgbaF32 t, .RgbaF32 b, .RgbaF32 f, .RgbaF32 bk]

/-! ## Helper lemmas -/

lemma bind_ok_inv {α β : Type} {x : PResult α} {f : α → PResult β} {b : β}
    (h : x.bind f = .ok b) : ∃ a, x = .ok a ∧ f a = .ok b := by
  cases x with
  | ok a => exact ⟨a, rfl, h⟩
  | err e => simp [PResult.bind] at h
  | panicked => simp [PResult.bind] at h

lemma PResult.ok_or_panicked {α : Type} (x : PResult α) (h : ∀ e, x ≠ .err e) :
    (∃ a, x = .ok a) ∨ x = .panicked := by
  cases x with
  | ok a => exact Or.inl ⟨a, rfl⟩
  | err e => exact absurd rfl (h e)
  | panicked => exact Or.inr rfl

lemma asRU8_ne_err (d : TextureData) (e : ImgError) : asRU8 d ≠ .err e := by
  cases d <;> simp [asRU8]

lemma asRgU8_ne_err (d : TextureData) (e : ImgError) : asRgU8 d ≠ .err e := by
  cases d <;> simp [asRgU8]

lemma asRgbU8_ne_err (d : TextureData) (e : ImgError) : asRgbU8 d ≠ .err e := by
  cases d <;> simp [asRgbU8]

lemma asRgbaU8_ne_err (d : TextureData) (e : ImgError) : asRgbaU8 d ≠ .err e := by
  cases d <;> simp [asRgbaU8]

lemma asRU8_ok_inv {d : TextureData} {x : List Nat} (h : asRU8 d = .ok x) :
    d = TextureData.RU8 x := by
  cases d <;> simp_all [asRU8]

lemma asRgU8_ok_inv {d : TextureData} {x : List (Nat × Nat)} (h : asRgU8 d = .ok x) :
    d = TextureData.RgU8 x := by
  cases d <;> simp_all [asRgU8]

lemma asRgbU8_ok_inv {d : TextureData} {x : List (Nat × Nat × Nat)} (h : asRgbU8 d = .ok x) :
    d = TextureData.RgbU8 x := by
  cases d <;> simp_all [asRgbU8]

lemma asRgbaU8_ok_inv {d : TextureData} {x : List (Nat × Nat × Nat × Nat)}
    (h : asRgbaU8 d = .ok x) : d = TextureData.RgbaU8 x := by
  cases d <;> simp_all [asRgbaU8]

lemma eq_RU8_of_tag {d : TextureData} (h : d.tag = 0) : ∃ x, d = TextureData.RU8 x := by
  cases d <;> simp_all [TextureData.tag]

lemma eq_RgU8_of_tag {d : TextureData} (h : d.tag = 1) : ∃ x, d = TextureData.RgU8 x := by
  cases d <;> simp_all [TextureData.tag]

lemma eq_RgbU8_of_tag {d : TextureData} (h : d.tag = 2) : ∃ x, d = TextureData.RgbU8 x := by
  cases d <;> simp_all [TextureData.tag]

lemma eq_RgbaU8_of_tag {d : TextureData} (h : d.tag = 3) : ∃ x, d = TextureData.RgbaU8 x := by
  cases d <;> simp_all [TextureData.tag]

lemma chain5_ok {γ : Type} (E : TextureData → PResult γ)
    (mk : γ → γ → γ → γ → γ → TextureCubeData) {l t b f bk : TextureData}
    {ld td bd fd bkd : γ}
    (hl : E l = .ok ld) (ht : E t = .ok td) (hb : E b = .ok bd)
    (hf : E f = .ok fd) (hk : E bk = .ok bkd) :
    chain5 E mk l t b f bk = .ok (mk ld td bd fd bkd) := by
  simp [chain5, PResult.bind, hl, ht, hb, hf, hk]

lemma chain5_ok_inv {γ : Type} {E : TextureData → PResult γ}
    {mk : γ → γ → γ → γ → γ → TextureCubeData} {l t b f bk : TextureData}
    {d : TextureCubeData} (h : chain5 E mk l t b f bk = .ok d) :
    ∃ ld td bd fd bkd, E l = .ok ld ∧ E t = .ok td ∧ E b = .ok bd ∧
      E f = .ok fd ∧ E bk = .ok bkd ∧ d = mk ld td bd fd bkd := by
  unfold chain5 at h
  obtain ⟨ld, hl, h⟩ := bind_ok_inv h
  obtain ⟨td, ht, h⟩ := bind_ok_inv h
  obtain ⟨bd, hb, h⟩ := bind_ok_inv h
  obtain ⟨fd, hf, h⟩ := bind_ok_inv h
  obtain ⟨bkd, hk, h⟩ := bind_ok_inv h
  cases h
  exact ⟨ld, td, bd, fd, bkd, hl, ht, hb, hf, hk, rfl⟩

lemma chain5_ne_err {γ : Type} {E : TextureData → PResult γ}
    {mk : γ → γ → γ → γ → γ → TextureCubeData} {l t b f bk : TextureData}
    (hE : ∀ d e, E d ≠ .err e) (e : ImgError) :
    chain5 E mk l t b f bk ≠ .err e := by
  rcases PResult.ok_or_panicked (E l) (hE l) with ⟨la, hl⟩ | hl <;>
  rcases PResult.ok_or_panicked (E t) (hE t) with ⟨ta, ht⟩ | ht <;>
  rcases PResult.ok_or_panicked (E b) (hE b) with ⟨ba, hb⟩ | hb <;>
  rcases PResult.ok_or_panicked (E f) (hE f) with ⟨fa, hf⟩ | hf <;>
  rcases PResult.ok_or_panicked (E bk) (hE bk) with ⟨ka, hk⟩ | hk <;>
  simp [chain5, PResult.bind, hl, ht, hb, hf, hk]

lemma cube_data_ok_inv {r l t b f bk : TextureData} {d : TextureCubeData}
    (h : cube_data r l t b f bk = .ok d) :
    l.tag = r.tag ∧ t.tag = r.tag ∧ b.tag = r.tag ∧ f.tag = r.tag ∧ bk.tag = r.tag ∧
      d.faces = [r, l, t, b, f, bk] := by
  cases r with
  | RU8 rd =>
    obtain ⟨ld, td, bd, fd, bkd, hl, ht, hb, hf, hk, hd⟩ := chain5_ok_inv h
    rw [asRU8_ok_inv hl, asRU8_ok_inv ht, asRU8_ok_inv hb, asRU8_ok_inv hf,
      asRU8_ok_inv hk, hd]
    simp [TextureData.tag, TextureCubeData.faces]
  | RgU8 rd =>
    obtain ⟨ld, td, bd, fd, bkd, hl, ht, hb, hf, hk, hd⟩ := chain5_ok_inv h
    rw [asRgU8_ok_inv hl, asRgU8_ok_inv ht, asRgU8_ok_inv hb, asRgU8_ok_inv hf,
      asRgU8_ok_inv hk, hd]
    simp [TextureData.tag, TextureCubeData.faces]
  | RgbU8 rd =>
    obtain ⟨ld, td, bd, fd, bkd, hl, ht, hb, hf, hk, hd⟩ := chain5_ok_inv h
    rw [asRgbU8_ok_inv hl, asRgbU8_ok_inv ht, asRgbU8_ok_inv hb, asRgbU8_ok_inv hf,
      asRgbU8_ok_inv hk, hd]
    simp [TextureData.tag, TextureCubeData.faces]
  | RgbaU8 rd =>
    obtain ⟨ld, td, bd, fd, bkd, hl, ht, hb, hf, hk, hd⟩ := chain5_ok_inv h
    rw [asRgbaU8_ok_inv hl, asRgbaU8_ok_inv ht, asRgbaU8_ok_inv hb, asRgbaU8_ok_inv hf,
      asRgbaU8_ok_inv hk, hd]
    simp [TextureData.tag, TextureCubeData.faces]
  | RF16 rd => simp [cube_data] at h
  | RgF16 rd => simp [cube_data] at h
  | RgbF16 rd => simp [cube_data] at h
  | RgbaF16 rd => simp [cube_data] at h
  | RF32 rd => simp [cube_data] at h
  | RgF32 rd => simp [cube_data] at h
  | RgbF32 rd => simp [cube_data] at h
  | RgbaF32 rd => simp [cube_data] at h

lemma cube_data_ne_err (r l t b f bk : TextureData) (e : ImgError) :
    cube_data r l t b f bk ≠ .err e := by
  cases r with
  | RU8 rd => exact chain5_ne_err asRU8_ne_err e
  | RgU8 rd => exact chain5_ne_err asRgU8_ne_err e
  | RgbU8 rd => exact chain5_ne_err asRgbU8_ne_err e
  | RgbaU8 rd => exact chain5_ne_err asRgbaU8_ne_err e
  | RF16 rd => simp [cube_data]
  | RgF16 rd => simp [cube_data]
  | RgbF16 rd => simp [cube_data]
  | RgbaF16 rd => simp [cube_data]
  | RF32 rd => simp [cube_data]
  | RgF32 rd => simp [cube_data]
  | RgbF32 rd => simp [cube_data]
  | RgbaF32 rd => simp [cube_data]

lemma cube_data_ok_of_tags {r l t b f bk : TextureData} (hr : r.tag < 4)
    (h1 : l.tag = r.tag) (h2 : t.tag = r.tag) (h3 : b.tag = r.tag)
    (h4 : f.tag = r.tag) (h5 : bk.tag = r.tag) :
    ∃ d, cube_data r l t b f bk = .ok d := by
  cases r with
  | RU8 rd =>
    simp only [TextureData.tag] at h1 h2 h3 h4 h5
    obtain ⟨ld, rfl⟩ := eq_RU8_of_tag h1
    obtain ⟨td, rfl⟩ := eq_RU8_of_tag h2
    obtain ⟨bd, rfl⟩ := eq_RU8_of_tag h3
    obtain ⟨fd, rfl⟩ := eq_RU8_of_tag h4
    obtain ⟨kd, rfl⟩ := eq_RU8_of_tag h5
    exact ⟨_, chain5_ok asRU8 _ rfl rfl rfl rfl rfl⟩
  | RgU8 rd =>
    simp only [TextureData.tag] at h1 h2 h3 h4 h5
    obtain ⟨ld, rfl⟩ := eq_RgU8_of_tag h1
    obtain ⟨td, rfl⟩ := eq_RgU8_of_tag h2
    obtain ⟨bd, rfl⟩ := eq_RgU8_of_tag h3
    obtain ⟨fd, rfl⟩ := eq_RgU8_of_tag h4
    obtain ⟨kd, rfl⟩ := eq_RgU8_of_tag h5
    exact ⟨_, chain5_ok asRgU8 _ rfl rfl rfl rfl rfl⟩
  | RgbU8 rd =>
    simp only [TextureData.tag] at h1 h2 h3 h4 h5
    obtain ⟨ld, rfl⟩ := eq_RgbU8_of_tag h1
    obtain ⟨td, rfl⟩ := eq_RgbU8_of_tag h2
    obtain ⟨bd, rfl⟩ := eq_RgbU8_of_tag h3
    obtain ⟨fd, rfl⟩ := eq_RgbU8_of_tag h4
    obtain ⟨kd, rfl⟩ := eq_RgbU8_of_tag h5
    exact ⟨_, chain5_ok asRgbU8 _ rfl rfl rfl rfl rfl⟩
  | RgbaU8 rd =>
    simp only [TextureData.tag] at h1 h2 h3 h4 h5
    obtain ⟨ld, rfl⟩ := eq_RgbaU8_of_tag h1
    obtain ⟨td, rfl⟩ := eq_RgbaU8_of_tag h2
    obtain ⟨bd, rfl⟩ := eq_RgbaU8_of_tag h3
    obtain ⟨fd, rfl⟩ := eq_RgbaU8_of_tag h4
    obtain ⟨kd, rfl⟩ := eq_RgbaU8_of_tag h5
    exact ⟨_, chain5_ok asRgbaU8 _ rfl rfl rfl rfl rfl⟩
  | RF16 rd => simp [TextureData.tag] at hr
  | RgF16 rd => simp [TextureData.tag] at hr
  | RgbF16 rd => simp [TextureData.tag] at hr
  | RgbaF16 rd => simp [TextureData.tag] at hr
  | RF32 rd => simp [TextureData.tag] at hr
  | RgF32 rd => simp [TextureData.tag] at hr
  | RgbF32 rd => simp [TextureData.tag] at hr
  | RgbaF32 rd => simp [TextureData.tag] at hr

lemma image_ok_tag {i : DynamicImage} {t : Texture2D}
    (h : image_from_decoded i = .ok t) : t.data.tag < 4 := by
  cases i <;> simp only [image_from_decoded] at h <;> cases h <;> simp [TextureData.tag]

lemma getD_map_range {α : Type} (f : Nat → α) {n i : Nat} (d0 : α) (hi : i < n) :
    ((List.range n).map f).getD i d0 = f i := by
  simp [List.getD_eq_getElem?_getD, List.getElem?_map, List.getElem?_range, hi]

lemma getD_replicate_zero (k i : Nat) : (List.replicate k (0 : Nat)).getD i 0 = 0 := by
  simp only [List.getD_eq_getElem?_getD, List.getElem?_replicate]
  split <;> simp

lemma group4_replicate_zero (m : Nat) :
    group4 (List.replicate (m * 4) 0) = List.replicate m (0, 0, 0, 0) := by
  unfold group4
  rw [List.length_replicate, Nat.mul_div_cancel _ (by norm_num)]
  rw [List.eq_replicate_iff]
  constructor
  · simp
  · intro x hx
    simp only [List.mem_map, List.mem_range] at hx
    obtain ⟨i, _, rfl⟩ := hx
    simp [getD_replicate_zero]

/-! ## Claim theorems -/

/-- C7: the default `Texture2D` has width 1, height 1, a single
fully-transparent-black 4-channel 8-bit texel `[0,0,0,0]`, `Linear` min and
mag filtering, a present (`some`) mip-map filter, and `Repeat` wrapping on
both the s and t axes. -/
theorem texture2d_default_fields :
    Texture2D.default.width = 1 ∧ Texture2D.default.height = 1 ∧
    Texture2D.default.data = TextureData.RgbaU8 [(0, 0, 0, 0)] ∧
    Texture2D.default.min_filter = Interpolation.Linear ∧
    Texture2D.default.mag_filter = Interpolation.Linear ∧
    (Texture2D.default.mip_map_filter).isSome = true ∧
    Texture2D.default.wrap_s = Wrapping.Repeat ∧
    Texture2D.default.wrap_t = Wrapping.Repeat := by
  decide

/-- C6 counterexample: the default `Texture2D` texel is fully-transparent
black `[0,0,0,0]`, not the opaque black `[0,0,0,255]` the claim states. -/
theorem texture2d_default_not_opaque_cex :
    Texture2D.default.data = TextureData.RgbaU8 [(0, 0, 0, 0)] ∧
    Texture2D.default.data ≠ TextureData.RgbaU8 [(0, 0, 0, 255)] := by
  decide

/-- C6 (amended): the default `Texture2D` holds a single fully-transparent
black 4-channel 8-bit texel of size 1x1 with linear filtering, linear mip
filtering and repeat wrapping; the default `TextureCube` holds a single
opaque-red 4-channel 8-bit texel replicated across all six faces with the
same filter defaults. -/
theorem texture_default_values :
    Texture2D.default.data = TextureData.RgbaU8 [(0, 0, 0, 0)] ∧
    Texture2D.default.width = 1 ∧ Texture2D.default.height = 1 ∧
    Texture2D.default.min_filter = Interpolation.Linear ∧
    Texture2D.default.mag_filter = Interpolation.Linear ∧
    Texture2D.default.mip_map_filter = some Interpolation.Linear ∧
    Texture2D.default.wrap_s = Wrapping.Repeat ∧
    Texture2D.default.wrap_t = Wrapping.Repeat ∧
    TextureCube.default.data = TextureCubeData.RgbaU8
      [(255, 0, 0, 255)] [(255, 0, 0, 255)] [(255, 0, 0, 255)]
      [(255, 0, 0, 255)] [(255, 0, 0, 255)] [(255, 0, 0, 255)] ∧
    TextureCube.default.width = 1 ∧ TextureCube.default.height = 1 ∧
    TextureCube.default.min_filter = Interpolation.Linear ∧
    TextureCube.default.mag_filter = Interpolation.Linear ∧
    TextureCube.default.mip_map_filter = some Interpolation.Linear ∧
    TextureCube.default.wrap_s = Wrapping.Repeat ∧
    TextureCube.default.wrap_t = Wrapping.Repeat ∧
    TextureCube.default.wrap_r = Wrapping.Repeat := by
  decide

/-- C10: the HDR decode path always produces the 3-channel 32-bit-float
variant, each texel being the `to_hdr` conversion of the decoded native
radiance texel, with width and height from the decoder's metadata and every
other field at its default. -/
theorem hdr_decode_always_rgbf32 (metadata : HdrMetadata) (img : List Rgbe8Pixel) :
    (hdr_image_from_decoded metadata img).data
        = TextureData.RgbF32 (img.map Rgbe8Pixel.to_hdr) ∧
    (hdr_image_from_decoded metadata img).width = metadata.width ∧
    (hdr_image_from_decoded metadata img).height = metadata.height ∧
    (hdr_image_from_decoded metadata img).min_filter = Texture2D.default.min_filter ∧
    (hdr_image_from_decoded metadata img).mag_filter = Texture2D.default.mag_filter ∧
    (hdr_image_from_decoded metadata img).mip_map_filter = Texture2D.default.mip_map_filter ∧
    (hdr_image_from_decoded metadata img).wrap_s = Texture2D.default.wrap_s ∧
    (hdr_image_from_decoded metadata img).wrap_t = Texture2D.default.wrap_t :=
  ⟨rfl, rfl, rfl, rfl, rfl, rfl, rfl, rfl⟩

/-- C4: for RgbaU8 textures of equal width and height, `serialize` produces
identical output regardless of the pixel data, and that output encodes an
all-zero image of the texture's size (the tuples are never written). -/
theorem serialize_ignores_pixel_data (t1 t2 : Texture2D)
    (d1 d2 : List (Nat × Nat × Nat × Nat))
    (h1 : t1.data = TextureData.RgbaU8 d1) (h2 : t2.data = TextureData.RgbaU8 d2)
    (hw : t1.width = t2.width) (hh : t1.height = t2.height) :
    t1.serialize_image = t2.serialize_image ∧
    t1.serialize_image = .ok (DynamicImage.ImageRgba8 t1.width t1.height
      (List.replicate (t1.width * t1.height * 4) 0)) := by
  simp [Texture2D.serialize_image, h1, h2, new_rgba8, hw, hh]

/-- C4 witness: two 1x1 RgbaU8 textures with different pixels serialize to
the same blank image. -/
theorem serialize_ignores_pixel_data_witness :
    ({ Texture2D.default with data := TextureData.RgbaU8 [(255, 0, 0, 255)] } : Texture2D).serialize_image
      = ({ Texture2D.default with data := TextureData.RgbaU8 [(7, 8, 9, 10)] } : Texture2D).serialize_image ∧
    ({ Texture2D.default with data := TextureData.RgbaU8 [(255, 0, 0, 255)] } : Texture2D).serialize_image
      = .ok (DynamicImage.ImageRgba8 1 1 (List.replicate 4 0)) :=
  serialize_ignores_pixel_data _ _ _ _ rfl rfl rfl rfl

/-- C3 counterexample: a decoded image whose layout is outside the four 8-bit
ones makes `image_from_bytes` panic (the `unimplemented!()` arm), and
`serialize` on a non-RgbaU8 variant panics as well — neither returns an
unsupported-format error value. -/
theorem unsupported_format_panics_cex :
    image_from_decoded (DynamicImage.ImageUnsupported 1 1) = PResult.panicked ∧
    ({ Texture2D.default with data := TextureData.RU8 [5] } : Texture2D).serialize_image
      = PResult.panicked := by
  decide

/-- C3 (amended): for every decoded layout outside {1,2,3,4 channels, 8-bit}
on the non-HDR path, and for every serialize request on a variant other than
RgbaU8, the operation aborts with an `unimplemented!()` panic rather than
returning an unsupported-format error value. -/
theorem unsupported_format_panics (w h : Nat) (t : Texture2D)
    (ht : ∀ d, t.data ≠ TextureData.RgbaU8 d) :
    image_from_decoded (DynamicImage.ImageUnsupported w h) = PResult.panicked ∧
    t.serialize_image = PResult.panicked := by
  refine ⟨rfl, ?_⟩
  cases hd : t.data <;>
    first
      | exact absurd hd (ht _)
      | simp [Texture2D.serialize_image, hd]

/-- C3 witness: a concrete unsupported layout and a concrete RgbU8 texture
both panic. -/
theorem unsupported_format_panics_witness :
    image_from_decoded (DynamicImage.ImageUnsupported 2 3) = PResult.panicked ∧
    ({ Texture2D.default with data := TextureData.RgbU8 [(1, 2, 3)] } : Texture2D).serialize_image
      = PResult.panicked :=
  unsupported_format_panics 2 3 _ (by intro d hd; cases hd)

/-- C1 counterexample: serializing a 1x1 RgbaU8 texture with the opaque red
texel and deserializing the result yields the all-zero texel, not the
original: the round trip does not reproduce the channel tuples. -/
theorem roundtrip_drops_pixels_cex :
    roundtrip { Texture2D.default with data := TextureData.RgbaU8 [(255, 0, 0, 255)] }
      = .ok { Texture2D.default with data := TextureData.RgbaU8 [(0, 0, 0, 0)] } ∧
    roundtrip { Texture2D.default with data := TextureData.RgbaU8 [(255, 0, 0, 255)] }
      ≠ .ok { Texture2D.default with data := TextureData.RgbaU8 [(255, 0, 0, 255)] } := by
  decide

/-- C1 (amended): serializing an RgbaU8 `Texture2D` and deserializing the
bytes yields a texture with the same width and height but with every channel
tuple zeroed — the serializer encodes a blank image of the stated size and
discards the pixel data. -/
theorem roundtrip_preserves_dims_zeroes_pixels (t : Texture2D)
    (d : List (Nat × Nat × Nat × Nat)) (h : t.data = TextureData.RgbaU8 d) :
    roundtrip t = .ok { Texture2D.default with
      data := TextureData.RgbaU8 (List.replicate (t.width * t.height) (0, 0, 0, 0))
      width := t.width
      height := t.height } := by
  simp [roundtrip, Texture2D.serialize_image, h, PResult.bind, new_rgba8,
    image_from_decoded, group4_replicate_zero]

/-- C1 witness: a concrete 2x1 RgbaU8 texture round-trips to the blank 2x1
texture. -/
theorem roundtrip_preserves_dims_zeroes_pixels_witness :
    roundtrip { Texture2D.default with
        data := TextureData.RgbaU8 [(10, 20, 30, 40), (50, 60, 70, 80)]
        width := 2
        height := 1 }
      = .ok { Texture2D.default with
          data := TextureData.RgbaU8 [(0, 0, 0, 0), (0, 0, 0, 0)]
          width := 2
          height := 1 } :=
  roundtrip_preserves_dims_zeroes_pixels _ _ rfl

/-- C5: for each supported channel count n in {1,2,3,4}, decoding an n-channel
8-bit image of dimensions w x h whose flat buffer has the decoder-guaranteed
length n*(w*h) yields the matching n-channel variant whose sequence has length
w*h and whose i-th tuple is the n consecutive source bytes at offset i*n; the
width and height are the decoder's, and every other field is the default. -/
theorem decode_deinterleaves_channels (w h : Nat) (bytes : List Nat) :
    (bytes.length = 1 * (w * h) →
      ∃ d, image_from_decoded (DynamicImage.ImageLuma8 w h bytes)
          = .ok { Texture2D.default with data := TextureData.RU8 d, width := w, height := h } ∧
        d.length = w * h ∧
        ∀ i, i < w * h → d.getD i 0 = bytes.getD (1 * i) 0) ∧
    (bytes.length = 2 * (w * h) →
      ∃ d, image_from_decoded (DynamicImage.ImageLumaA8 w h bytes)
          = .ok { Texture2D.default with data := TextureData.RgU8 d, width := w, height := h } ∧
        d.length = w * h ∧
        ∀ i, i < w * h →
          d.getD i (0, 0) = (bytes.getD (2 * i) 0, bytes.getD (2 * i + 1) 0)) ∧
    (bytes.length = 3 * (w * h) →
      ∃ d, image_from_decoded (DynamicImage.ImageRgb8 w h bytes)
          = .ok { Texture2D.default with data := TextureData.RgbU8 d, width := w, height := h } ∧
        d.length = w * h ∧
        ∀ i, i < w * h →
          d.getD i (0, 0, 0)
            = (bytes.getD (3 * i) 0, bytes.getD (3 * i + 1) 0, bytes.getD (3 * i + 2) 0)) ∧
    (bytes.length = 4 * (w * h) →
      ∃ d, image_from_decoded (DynamicImage.ImageRgba8 w h bytes)
          = .ok { Texture2D.default with data := TextureData.RgbaU8 d, width := w, height := h } ∧
        d.length = w * h ∧
        ∀ i, i < w * h →
          d.getD i (0, 0, 0, 0)
            = (bytes.getD (4 * i) 0, bytes.getD (4 * i + 1) 0,
               bytes.getD (4 * i + 2) 0, bytes.getD (4 * i + 3) 0)) := by
  refine ⟨?_, ?_, ?_, ?_⟩
  · intro hlen
    refine ⟨bytes, rfl, by omega, ?_⟩
    intro i hi
    simp [Nat.one_mul]
  · intro hlen
    have hn : bytes.length / 2 = w * h := by omega
    refine ⟨group2 bytes, rfl, ?_, ?_⟩
    · simp [group2, hn]
    · intro i hi
      have hi2 : i < bytes.length / 2 := by omega
      simp only [group2]
      exact getD_map_range _ _ hi2
  · intro hlen
    have hn : bytes.length / 3 = w * h := by omega
    refine ⟨group3 bytes, rfl, ?_, ?_⟩
    · simp [group3, hn]
    · intro i hi
      have hi2 : i < bytes.length / 3 := by omega
      simp only [group3]
      exact getD_map_range _ _ hi2
  · intro hlen
    have hn : bytes.length / 4 = w * h := by omega
    refine ⟨group4 bytes, rfl, ?_, ?_⟩
    · simp [group4, hn]
    · intro i hi
      have hi2 : i < bytes.length / 4 := by omega
      simp only [group4]
      exact getD_map_range _ _ hi2

/-- C5 witness: concrete decodes for all four channel counts, including the
spec's 2x1 4-channel example `[10,20,30,40,50,60,70,80]`. -/
theorem decode_deinterleaves_channels_witness :
    (∃ d, image_from_decoded (DynamicImage.ImageLuma8 2 1 [9, 11])
        = .ok { Texture2D.default with data := TextureData.RU8 d, width := 2, height := 1 } ∧
      d.length = 2 * 1 ∧
      ∀ i, i < 2 * 1 → d.getD i 0 = [9, 11].getD (1 * i) 0) ∧
    (∃ d, image_from_decoded (DynamicImage.ImageLumaA8 1 1 [3, 4])
        = .ok { Texture2D.default with data := TextureData.RgU8 d, width := 1, height := 1 } ∧
      d.length = 1 * 1 ∧
      ∀ i, i < 1 * 1 →
        d.getD i (0, 0) = ([3, 4].getD (2 * i) 0, [3, 4].getD (2 * i + 1) 0)) ∧
    (∃ d, image_from_decoded (DynamicImage.ImageRgb8 1 1 [1, 2, 3])
        = .ok { Texture2D.default with data := TextureData.RgbU8 d, width := 1, height := 1 } ∧
      d.length = 1 * 1 ∧
      ∀ i, i < 1 * 1 →
        d.getD i (0, 0, 0)
          = ([1, 2, 3].getD (3 * i) 0, [1, 2, 3].getD (3 * i + 1) 0,
             [1, 2, 3].getD (3 * i + 2) 0)) ∧
    (∃ d, image_from_decoded (DynamicImage.ImageRgba8 2 1 [10, 20, 30, 40, 50, 60, 70, 80])
        = .ok { Texture2D.default with data := TextureData.RgbaU8 d, width := 2, height := 1 } ∧
      d.length = 2 * 1 ∧
      ∀ i, i < 2 * 1 →
        d.getD i (0, 0, 0, 0)
          = ([10, 20, 30, 40, 50, 60, 70, 80].getD (4 * i) 0,
             [10, 20, 30, 40, 50, 60, 70, 80].getD (4 * i + 1) 0,
             [10, 20, 30, 40, 50, 60, 70, 80].getD (4 * i + 2) 0,
             [10, 20, 30, 40, 50, 60, 70, 80].getD (4 * i + 3) 0)) :=
  ⟨(decode_deinterleaves_channels 2 1 [9, 11]).1 (by decide),
   (decode_deinterleaves_channels 1 1 [3, 4]).2.1 (by decide),
   (decode_deinterleaves_channels 1 1 [1, 2, 3]).2.2.1 (by decide),
   (decode_deinterleaves_channels 2 1 [10, 20, 30, 40, 50, 60, 70, 80]).2.2.2 (by decide)⟩

/-- C2 counterexample: six decoded faces where the left face is 2-channel
while the others are 1-channel make cube assembly hit the `unreachable!()`
panic — it neither succeeds nor returns a mismatch error value. -/
theorem cube_face_mismatch_panics_cex :
    cube_image_from_decoded (DynamicImage.ImageLuma8 1 1 [5])
      (DynamicImage.ImageLumaA8 1 1 [1, 2]) (DynamicImage.ImageLuma8 1 1 [5])
      (DynamicImage.ImageLuma8 1 1 [5]) (DynamicImage.ImageLuma8 1 1 [5])
      (DynamicImage.ImageLuma8 1 1 [5]) = PResult.panicked := by
  decide

/-- C2 (amended): for six inputs that each decode successfully but whose
decoded pixel-format variant tags are not all equal, cube assembly aborts
with an `unreachable!()` panic; it does not succeed and does not return an
error value. -/
theorem cube_face_mismatch_panics
    (ri le to_ bo fr ba : DynamicImage) (rt lt tt_ bt ft bkt : Texture2D)
    (hr : image_from_decoded ri = .ok rt) (hl : image_from_decoded le = .ok lt)
    (ht : image_from_decoded to_ = .ok tt_) (hb : image_from_decoded bo = .ok bt)
    (hf : image_from_decoded fr = .ok ft) (hk : image_from_decoded ba = .ok bkt)
    (hne : ¬(lt.data.tag = rt.data.tag ∧ tt_.data.tag = rt.data.tag ∧
             bt.data.tag = rt.data.tag ∧ ft.data.tag = rt.data.tag ∧
             bkt.data.tag = rt.data.tag)) :
    cube_image_from_decoded ri le to_ bo fr ba = PResult.panicked := by
  have hcd : cube_data rt.data lt.data tt_.data bt.data ft.data bkt.data
      = PResult.panicked := by
    rcases hval : cube_data rt.data lt.data tt_.data bt.data ft.data bkt.data
      with dd | e | _
    · obtain ⟨a1, a2, a3, a4, a5, -⟩ := cube_data_ok_inv hval
      exact absurd ⟨a1, a2, a3, a4, a5⟩ hne
    · exact absurd hval (cube_data_ne_err _ _ _ _ _ _ e)
    · rfl
  unfold cube_image_from_decoded
  rw [hr, hl, ht, hb, hf, hk]
  simp only [PResult.bind]
  rw [hcd]

/-- C2 witness: a concrete mismatch (right face 1-channel, left face
2-channel) panics. -/
theorem cube_face_mismatch_panics_witness :
    cube_image_from_decoded (DynamicImage.ImageLuma8 1 1 [6])
      (DynamicImage.ImageLumaA8 1 1 [1, 2]) (DynamicImage.ImageLuma8 1 1 [7])
      (DynamicImage.ImageLuma8 1 1 [8]) (DynamicImage.ImageLuma8 1 1 [9])
      (DynamicImage.ImageLuma8 1 1 [10]) = PResult.panicked :=
  cube_face_mismatch_panics _ _ _ _ _ _ _ _ _ _ _ _
    rfl rfl rfl rfl rfl rfl (by decide)

/-- C8: every successful cube assembly takes its width, height, filters and
wraps from the decoded right face (the source sets `wrap_r` from the right
face's `wrap_s`), and stores the six face sequences in
right/left/top/bottom/front/back order. -/
theorem cube_fields_from_right_face (ri le to_ bo fr ba : DynamicImage)
    (c : TextureCube)
    (h : cube_image_from_decoded ri le to_ bo fr ba = .ok c) :
    ∃ rt lt tt_ bt ft bkt,
      image_from_decoded ri = .ok rt ∧ image_from_decoded le = .ok lt ∧
      image_from_decoded to_ = .ok tt_ ∧ image_from_decoded bo = .ok bt ∧
      image_from_decoded fr = .ok ft ∧ image_from_decoded ba = .ok bkt ∧
      c.width = rt.width ∧ c.height = rt.height ∧
      c.min_filter = rt.min_filter ∧ c.mag_filter = rt.mag_filter ∧
      c.mip_map_filter = rt.mip_map_filter ∧
      c.wrap_s = rt.wrap_s ∧ c.wrap_t = rt.wrap_t ∧ c.wrap_r = rt.wrap_s ∧
      c.data.faces = [rt.data, lt.data, tt_.data, bt.data, ft.data, bkt.data] := by
  unfold cube_image_from_decoded at h
  obtain ⟨rt, hr, h⟩ := bind_ok_inv h
  obtain ⟨lt, hl, h⟩ := bind_ok_inv h
  obtain ⟨tt2, ht, h⟩ := bind_ok_inv h
  obtain ⟨bt, hb, h⟩ := bind_ok_inv h
  obtain ⟨ft, hf, h⟩ := bind_ok_inv h
  obtain ⟨bkt, hk, h⟩ := bind_ok_inv h
  obtain ⟨dd, hd, h⟩ := bind_ok_inv h
  cases h
  exact ⟨rt, lt, tt2, bt, ft, bkt, hr, hl, ht, hb, hf, hk,
    rfl, rfl, rfl, rfl, rfl, rfl, rfl, rfl, (cube_data_ok_inv hd).2.2.2.2.2⟩

/-- C8 witness: a concrete successful assembly from six distinct 1x1
one-channel faces carries the right face's fields and keeps the face order. -/
theorem cube_fields_from_right_face_witness :
    ∃ c, cube_image_from_decoded (DynamicImage.ImageLuma8 1 1 [5])
        (DynamicImage.ImageLuma8 1 1 [6]) (DynamicImage.ImageLuma8 1 1 [7])
        (DynamicImage.ImageLuma8 1 1 [8]) (DynamicImage.ImageLuma8 1 1 [9])
        (DynamicImage.ImageLuma8 1 1 [10]) = .ok c ∧
      ∃ rt lt tt_ bt ft bkt,
        image_from_decoded (DynamicImage.ImageLuma8 1 1 [5]) = .ok rt ∧
        image_from_decoded (DynamicImage.ImageLuma8 1 1 [6]) = .ok lt ∧
        image_from_decoded (DynamicImage.ImageLuma8 1 1 [7]) = .ok tt_ ∧
        image_from_decoded (DynamicImage.ImageLuma8 1 1 [8]) = .ok bt ∧
        image_from_decoded (DynamicImage.ImageLuma8 1 1 [9]) = .ok ft ∧
        image_from_decoded (DynamicImage.ImageLuma8 1 1 [10]) = .ok bkt ∧
        c.width = rt.width ∧ c.height = rt.height ∧
        c.min_filter = rt.min_filter ∧ c.mag_filter = rt.mag_filter ∧
        c.mip_map_filter = rt.mip_map_filter ∧
        c.wrap_s = rt.wrap_s ∧ c.wrap_t = rt.wrap_t ∧ c.wrap_r = rt.wrap_s ∧
        c.data.faces = [rt.data, lt.data, tt_.data, bt.data, ft.data, bkt.data] := by
  refine ⟨_, rfl, ?_⟩
  exact cube_fields_from_right_face _ _ _ _ _ _ _ rfl

/-- C9: six byte buffers that decode to the same variant tag assemble
successfully even when the faces' widths or heights differ — no cross-face
dimension check is performed — and the result's width and height are the
right face's. -/
theorem cube_no_cross_face_dimension_check
    (ri le to_ bo fr ba : DynamicImage) (rt lt tt_ bt ft bkt : Texture2D)
    (hr : image_from_decoded ri = .ok rt) (hl : image_from_decoded le = .ok lt)
    (ht : image_from_decoded to_ = .ok tt_) (hb : image_from_decoded bo = .ok bt)
    (hf : image_from_decoded fr = .ok ft) (hk : image_from_decoded ba = .ok bkt)
    (h1 : lt.data.tag = rt.data.tag) (h2 : tt_.data.tag = rt.data.tag)
    (h3 : bt.data.tag = rt.data.tag) (h4 : ft.data.tag = rt.data.tag)
    (h5 : bkt.data.tag = rt.data.tag) :
    ∃ c, cube_image_from_decoded ri le to_ bo fr ba = .ok c ∧
      c.width = rt.width ∧ c.height = rt.height := by
  obtain ⟨dd, hd⟩ := cube_data_ok_of_tags (image_ok_tag hr) h1 h2 h3 h4 h5
  refine ⟨{ data := dd, width := rt.width, height := rt.height,
            min_filter := rt.min_filter, mag_filter := rt.mag_filter,
            mip_map_filter := rt.mip_map_filter, wrap_s := rt.wrap_s,
            wrap_t := rt.wrap_t, wrap_r := rt.wrap_s }, ?_, rfl, rfl⟩
  unfold cube_image_from_decoded
  rw [hr, hl, ht, hb, hf, hk]
  simp only [PResult.bind]
  rw [hd]

/-- C9 witness: six same-variant faces whose dimensions disagree (right is
1x1, left is 2x1) still assemble, and the cube takes the right face's 1x1
size. -/
theorem cube_no_cross_face_dimension_check_witness :
    ∃ c, cube_image_from_decoded (DynamicImage.ImageLuma8 1 1 [5])
        (DynamicImage.ImageLuma8 2 1 [1, 2]) (DynamicImage.ImageLuma8 1 1 [7])
        (DynamicImage.ImageLuma8 1 1 [8]) (DynamicImage.ImageLuma8 1 1 [9])
        (DynamicImage.ImageLuma8 1 1 [10]) = .ok c ∧
      c.width = 1 ∧ c.height = 1 :=
  cube_no_cross_face_dimension_check _ _ _ _ _ _
    { Texture2D.default with data := TextureData.RU8 [5], width := 1, height := 1 }
    { Texture2D.default with data := TextureData.RU8 [1, 2], width := 2, height := 1 }
    { Texture2D.default with data := TextureData.RU8 [7], width := 1, height := 1 }
    { Texture2D.default with data := TextureData.RU8 [8], width := 1, height := 1 }
    { Texture2D.default with data := TextureData.RU8 [9], width := 1, height := 1 }
    { Texture2D.default with data := TextureData.RU8 [10], width := 1, height := 1 }
    rfl rfl rfl rfl rfl rfl rfl rfl rfl rfl rfl
